import Mathlib

/-
Shallow embedding of the CS2 skin trade-logging Telegram bot (src/index.js).

The bot is a conversation state machine over per-user sessions: users search a
remotely fetched, cached list of skin names with a fuzzy matcher, page through
ranked results, select a skin and a wear, enter a price, pick an account, and
the committed trade is appended to a spreadsheet.  The transport (Telegraf) and
the spreadsheet API are external collaborators; their outcomes are passed to
the embedded handlers as explicit parameters (fetch results as Except values,
append success as a Bool), and each handler is a pure function from the session
and the incoming event to the new session and the reply it renders.  Handlers
in the source mutate a global session object; here they return the updated
session.  The fuzzball partial-ratio scorer is a third-party library function
and is abstracted as a scorer parameter; JavaScript builtins used by the code
(parseFloat, String.prototype.trim, array sort stability per ES2019) are
modelled explicitly below.
-/

/-! ### JavaScript primitives -/

/-- Characters treated as whitespace by the model of JS trimming and of the
leading-whitespace skipping in parseFloat (the ASCII part of the \s class). -/
def jsWhite (c : Char) : Bool :=
  c == ' ' || c == '\t' || c == '\n' || c == '\r' || c == '\x0b' || c == '\x0c'

/-- Model of String.prototype.trim restricted to ASCII whitespace. -/
def jsTrim (s : String) : String :=
  String.mk (((s.data.dropWhile jsWhite).reverse.dropWhile jsWhite).reverse)

/-- Model of a JS number as far as the handlers inspect one: NaN, a signed
infinity, or an exact decimal value num / 10 ^ pow10.  The code only ever
applies isNaN and a comparison with 0 to a parsed price, so the exact decimal
representation is faithful for every branch the handlers take. -/
inductive JSNum where
  | nan : JSNum
  | inf (neg : Bool) : JSNum
  | num (n : Int) (pow10 : Nat) : JSNum
deriving DecidableEq

/-- Model of the isNaN test applied to a parsed number. -/
def jsIsNaN : JSNum → Bool
  | JSNum.nan => true
  | _ => false

/-- Model of the test price <= 0 on a JS number (NaN compares false). -/
def jsLeZero : JSNum → Bool
  | JSNum.nan => false
  | JSNum.inf neg => neg
  | JSNum.num n _ => decide (n ≤ 0)

/-- Numeric value of a decimal digit character. -/
def digitVal (c : Char) : Nat := c.toNat - '0'.toNat

/-- Value of a list of decimal digit characters, most significant first. -/
def digitsToNat (ds : List Char) : Nat :=
  ds.foldl (fun n c => 10 * n + digitVal c) 0

/-- Signed exponent digits after the exponent marker of a decimal literal;
an absent or empty digit string contributes exponent 0, matching the
longest-valid-prefix rule of parseFloat. -/
def parseExpTail (cs : List Char) : Int :=
  match cs with
  | '+' :: r => Int.ofNat (digitsToNat (r.takeWhile Char.isDigit))
  | '-' :: r => - Int.ofNat (digitsToNat (r.takeWhile Char.isDigit))
  | r => Int.ofNat (digitsToNat (r.takeWhile Char.isDigit))

/-- Exponent part of a decimal literal: an e or E marker followed by an
optionally signed digit string. -/
def parseExp : List Char → Int
  | 'e' :: rest => parseExpTail rest
  | 'E' :: rest => parseExpTail rest
  | _ => 0

/-- Value of a decimal literal from its integer digits, fraction digits and
the remaining characters (which may start with an exponent part).  NaN when
both digit groups are empty. -/
def mkDecimal (neg : Bool) (intDigits fracDigits afterFrac : List Char) : JSNum :=
  if intDigits.isEmpty && fracDigits.isEmpty then JSNum.nan
  else
    let m : Nat := digitsToNat intDigits * 10 ^ fracDigits.length + digitsToNat fracDigits
    let net : Int := parseExp afterFrac - Int.ofNat fracDigits.length
    let mag : Int × Nat :=
      if 0 ≤ net then (Int.ofNat (m * 10 ^ net.toNat), 0)
      else (Int.ofNat m, (- net).toNat)
    JSNum.num (if neg then - mag.1 else mag.1) mag.2

/-- Longest decimal-literal prefix of a character list: digits, an optional
point with further digits, and an optional exponent part. -/
def parseDecimal (neg : Bool) (cs : List Char) : JSNum :=
  let intDigits := cs.takeWhile Char.isDigit
  let rest := cs.drop intDigits.length
  match rest with
  | '.' :: r =>
      let fracDigits := r.takeWhile Char.isDigit
      mkDecimal neg intDigits fracDigits (r.drop fracDigits.length)
  | _ => mkDecimal neg intDigits [] rest

/-- Unsigned part of a parseFloat literal: the Infinity keyword or a decimal
literal. -/
def parseUnsigned (neg : Bool) (cs : List Char) : JSNum :=
  if cs.take 8 = "Infinity".data then JSNum.inf neg else parseDecimal neg cs

/-- Model of the ECMAScript parseFloat builtin used by the price handler:
skip leading whitespace, read an optional sign, then the longest prefix that
is Infinity or a decimal literal; NaN when no prefix parses. -/
def parseFloat (s : String) : JSNum :=
  let cs := s.data.dropWhile jsWhite
  match cs with
  | '-' :: rest => parseUnsigned true rest
  | '+' :: rest => parseUnsigned false rest
  | _ => parseUnsigned false cs

/-- Lexicographic strict comparison of character lists by code point, the
order JS string comparison uses. -/
def strLtChars : List Char → List Char → Bool
  | [], [] => false
  | [], _ :: _ => true
  | _ :: _, [] => false
  | a :: as, b :: bs => if a == b then strLtChars as bs else decide (a.toNat < b.toNat)

/-- Lexicographic strict comparison of strings. -/
def strLt (a b : String) : Bool := strLtChars a.data b.data

/-- Maximum of two strings in lexicographic order, keeping the second
argument on ties. -/
def strMax (a b : String) : String := if strLt b a then a else b

/-! ### Constants (src/index.js lines 205-219) -/

/-- The five fixed wear options offered after a skin is selected. -/
def wearOptions : List String :=
  ["Factory New", "Minimal Wear", "Field-Tested", "Well-Worn", "Battle-Scarred"]

/-- The fixed account allow-list offered after a price is entered. -/
def accountOptions : List String :=
  ["Panda main", "Panda_cs1", "Titalium", "Maleek"]

/-! ### Session data model (src/index.js lines 221-241) -/

/-- Pagination data stored inside a session (the search field). -/
structure SearchState where
  term : String
  results : List String
  page : Nat
  pageSize : Nat
deriving DecidableEq

/-- A pending skin entry; the wear is absent until the wear handler fills it. -/
structure Skin where
  name : String
  wear : Option String
deriving DecidableEq

/-- A per-user session.  currentSkin and price are absent until the respective
handlers set them, matching the fields being undefined in the source. -/
structure Session where
  skins : List Skin
  step : String
  timestamp : Nat
  search : SearchState
  currentSkin : Option Skin
  price : Option JSNum
deriving DecidableEq

/-- The default session state created by initializeSession and restored by the
post-commit reset: step addSkin, no pending skins, empty search state. -/
def defaultSession (now : Nat) : Session :=
  { skins := [], step := "addSkin", timestamp := now,
    search := { term := "", results := [], page := 0, pageSize := 5 },
    currentSkin := none, price := none }

/-- The session store: the global userSessions object as an association list
from user id to session. -/
def lookupSession (store : List (Nat × Session)) (userId : Nat) : Option Session :=
  (store.find? (fun p => p.1 == userId)).map (fun p => p.2)

/-- Embedding of initializeSession (src/index.js lines 224-241): when the user
has no session, create a default one and then delete every session whose
timestamp is more than 3600000 ms old; when the user already has a session it
is returned as is and nothing else runs. -/
def initializeSession (store : List (Nat × Session)) (userId : Nat) (now : Nat) :
    List (Nat × Session) × Session :=
  match lookupSession store userId with
  | some s => (store, s)
  | none =>
      let fresh := defaultSession now
      let withNew := store ++ [(userId, fresh)]
      let swept := withNew.filter (fun p => !(decide (now - p.2.timestamp > 3600000)))
      (swept, fresh)

/-! ### Name cache (src/index.js lines 27-32 and 85-112) -/

/-- The process-wide skinsCache variable. -/
structure SkinsCache where
  list : List String
  lastUpdated : Nat
deriving DecidableEq

/-- cacheDuration: one hour in milliseconds. -/
def cacheDuration : Nat := 3600000

deriving instance DecidableEq for Except

/-- Result of one fetchSkinsList call: the value returned or error thrown, the
cache state afterwards, and whether a remote fetch was attempted. -/
structure FetchOut where
  result : Except String (List String)
  cache : SkinsCache
  didFetch : Bool
deriving DecidableEq

/-- The list built from a successful spreadsheet read:
rows.map(row => row[0]).filter(Boolean); Boolean drops both a missing first
cell (undefined) and an empty string, which headD followed by the nonempty
filter models exactly. -/
def fetchedNames (rows : List (List String)) : List String :=
  (rows.map (fun row => row.headD (""))).filter (fun s => !(s == ""))

/-- Embedding of fetchSkinsList (src/index.js lines 85-112).  The remote
spreadsheet read is passed in as fetch: rows of cells on success. -/
def fetchSkinsList (cache : SkinsCache) (now : Nat)
    (fetch : Except String (List (List String))) : FetchOut :=
  if 0 < cache.list.length ∧ now - cache.lastUpdated < cacheDuration then
    { result := Except.ok cache.list, cache := cache, didFetch := false }
  else
    match fetch with
    | Except.ok rows =>
        { result := Except.ok (fetchedNames rows),
          cache := { list := fetchedNames rows, lastUpdated := now }, didFetch := true }
    | Except.error err =>
        if 0 < cache.list.length then
          { result := Except.ok cache.list, cache := cache, didFetch := true }
        else
          { result := Except.error ("Failed to fetch skins list: " ++ err),
            cache := cache, didFetch := true }

/-! ### Fuzzy search (src/index.js lines 114-128) -/

/-- A scored corpus entry, the intermediate record of the searchSkins chain. -/
structure Scored where
  name : String
  score : Nat
deriving DecidableEq

/-- Descending-score ordering used by the sort comparator
(a, b) => b.score - a.score. -/
def scoreGe (a b : Scored) : Prop := b.score ≤ a.score

instance : DecidableRel scoreGe := fun _ b => Nat.decLe b.score _

instance : IsTotal Scored scoreGe := ⟨fun a b => Nat.le_total b.score a.score⟩

instance : IsTrans Scored scoreGe := ⟨fun _ _ _ h1 h2 => Nat.le_trans h2 h1⟩

/-- Normalization applied to the query and every corpus entry: lower-case and
strip every character outside lower-case letters, digits and whitespace. -/
def normalizeName (s : String) : String :=
  String.mk ((s.data.map Char.toLower).filter
    (fun c => ('a' ≤ c && c ≤ 'z') || ('0' ≤ c && c ≤ '9') || jsWhite c))

/-- The map stage of searchSkins: score every corpus entry against the
normalized search term.  The fuzzball partial-ratio scorer (a third-party
library call, an integer 0-100) is the parameter pr, applied exactly as in the
source: pr normalizedSearch (normalized entry). -/
def scoredAll (pr : String → String → Nat) (skinsList : List String)
    (searchTerm : String) : List Scored :=
  let normalizedSearch := normalizeName searchTerm
  skinsList.map (fun skin => { name := skin, score := pr normalizedSearch (normalizeName skin) })

/-- The filter stage of searchSkins: keep entries with score > 70. -/
def scoredKept (pr : String → String → Nat) (skinsList : List String)
    (searchTerm : String) : List Scored :=
  (scoredAll pr skinsList searchTerm).filter (fun r => decide (70 < r.score))

/-- The sort stage of searchSkins: Array.prototype.sort with the comparator
(a, b) => b.score - a.score, which ES2019 requires to be a stable sort; a
stable insertion sort with the matching ordering embeds it. -/
def rankedSkins (pr : String → String → Nat) (skinsList : List String)
    (searchTerm : String) : List Scored :=
  List.insertionSort scoreGe (scoredKept pr skinsList searchTerm)

/-- Embedding of searchSkins (src/index.js lines 115-128): map to scores,
filter by threshold, sort descending, project the names. -/
def searchSkins (pr : String → String → Nat) (skinsList : List String)
    (searchTerm : String) : List String :=
  (rankedSkins pr skinsList searchTerm).map Scored.name

/-! ### Last log (src/index.js lines 37-63) -/

/-- Model of the JS expression cell || fallback on a row cell: undefined and
the empty string are both falsy. -/
def jsOr (cell : Option String) (dflt : String) : String :=
  match cell with
  | none => dflt
  | some s => if s = "" then dflt else s

/-- Model of template interpolation of a possibly missing cell: undefined
renders as the text undefined. -/
def jsTemplate (cell : Option String) : String :=
  match cell with
  | none => "undefined"
  | some s => s

/-- The message built by getLastLog for a chosen date text and the rows
grouped under it: one line per skin, then the price and account of the first
grouped row. -/
def formatLastLog (dateText : String) (grp : List (List String)) : String :=
  let header := "Last Log (Date: " ++ dateText ++ "):\n"
  let body := String.join (grp.enum.map (fun p =>
    "Skin " ++ toString (p.1 + 1) ++ ": " ++ jsOr p.2[1]? ("N/A") ++ " (" ++
      jsOr p.2[2]? ("N/A") ++ ")\n"))
  header ++ body ++ "Price Paid: " ++ jsOr (grp.headD [])[3]? ("N/A") ++ "\n" ++
    "Account: " ++ jsOr (grp.headD [])[5]? ("N/A")

/-- Embedding of the pure part of getLastLog (src/index.js lines 37-63), a
function of the rows returned by the spreadsheet read: the date of the LAST
row selects the group. -/
def getLastLog (rows : List (List String)) : String :=
  if rows.length = 0 then "No previous logs found."
  else
    let lastDate := (rows.getD (rows.length - 1) [])[0]?
    let lastSessionRows := rows.filter (fun row => decide (row[0]? = lastDate))
    if lastSessionRows.length = 0 then "No previous logs found."
    else formatLastLog (jsTemplate lastDate) lastSessionRows

/-- Follows the spec words for lastLog: find the MAXIMUM date among the stored
rows, group all rows sharing that date, and report them.  Kept separate from
the source embedding getLastLog so the two can be compared. -/
def getLastLogSpec (rows : List (List String)) : String :=
  if rows.length = 0 then "No previous logs found."
  else
    let dates := rows.map (fun row => row.headD (""))
    let maxDate := dates.foldl strMax (dates.headD (""))
    let grp := rows.filter (fun row => decide (row.headD ("") = maxDate))
    if grp.length = 0 then "No previous logs found."
    else formatLastLog maxDate grp

/-! ### Pagination handler (src/index.js lines 448-492) -/

/-- Replies the pagination action handler can render. -/
inductive PageReply where
  | noResultsAvailable
  | noMore
  | page (items : List String) (hasPrev hasNext : Bool) (total : Nat)
deriving DecidableEq

/-- Math.ceil(len / pageSize) for a positive pageSize, as a natural number. -/
def totalPages (len pageSize : Nat) : Nat := (len + pageSize - 1) / pageSize

/-- Follows the spec words for the Paginator: ceil(results.length / pageSize)
with a minimum of 1 even for empty input.  Kept separate from the source
embedding totalPages so the two can be compared. -/
def totalPagesSpec (len pageSize : Nat) : Nat := max ((len + pageSize - 1) / pageSize) 1

/-- Embedding of the page_N action handler (src/index.js lines 448-492): with
no stored results, reply and leave the session alone; otherwise store the
requested page index, slice the stored results, and either report no more
results (empty slice) or render the page with its navigation controls. -/
def pageHandler (session : Session) (pageNum : Nat) : Session × PageReply :=
  let results := session.search.results
  let pageSize := session.search.pageSize
  if results.length = 0 then (session, PageReply.noResultsAvailable)
  else
    let session2 := { session with search := { session.search with page := pageNum } }
    let start := pageNum * pageSize
    let pageSkins := (results.drop start).take pageSize
    if pageSkins.length = 0 then (session2, PageReply.noMore)
    else (session2, PageReply.page pageSkins (decide (0 < pageNum))
      (decide (start + pageSize < results.length)) (totalPages results.length pageSize))

/-! ### Price entry (src/index.js lines 528-546) -/

/-- Replies the enterPrice branch of the text handler can render. -/
inductive PriceReply where
  | invalidNumber
  | notPositive
  | accountMenu (accounts : List String)
deriving DecidableEq

/-- Embedding of the enterPrice branch of the text handler (src/index.js lines
528-546): parse the trimmed text with parseFloat; NaN or a value <= 0
re-prompts without touching the session; otherwise store the price, move to
selectAccount and render the account menu. -/
def handleEnterPrice (session : Session) (rawText : String) : Session × PriceReply :=
  let price := parseFloat (jsTrim rawText)
  if jsIsNaN price then (session, PriceReply.invalidNumber)
  else if jsLeZero price then (session, PriceReply.notPositive)
  else ({ session with price := some price, step := "selectAccount" },
        PriceReply.accountMenu accountOptions)

/-! ### Skin selection (src/index.js lines 553-571) -/

/-- Reply of the skin selection handler: the wear menu for the chosen name. -/
inductive SkinReply where
  | wearMenu (skinName : String) (wears : List String)
deriving DecidableEq

/-- Embedding of the select_skin action handler (src/index.js lines 553-571):
decode the callback payload (decodeURIComponent is passed in as decode), store
it as the current skin name with no membership check of any kind, move to
selectWear and render the wear menu. -/
def selectSkinHandler (decode : String → String) (session : Session)
    (payload : String) : Session × SkinReply :=
  let skinName := decode payload
  ({ session with
      currentSkin := some (Skin.mk skinName none)
      step := "selectWear" },
   SkinReply.wearMenu skinName wearOptions)

/-! ### Account selection and commit (src/index.js lines 613-636) -/

/-- Replies the select_account action handler can render. -/
inductive AccountReply where
  | invalid
  | saved
  | saveError
deriving DecidableEq

/-- Embedding of the select_account action handler (src/index.js lines
613-636).  appendOk is the outcome of the spreadsheet append; when it throws,
control jumps to the catch block and the reset line never runs, so the session
is returned unchanged.  Only after a successful append is the session reset to
the default state. -/
def selectAccountHandler (session : Session) (account : String) (appendOk : Bool)
    (now : Nat) : Session × AccountReply :=
  if account ∈ accountOptions then
    if appendOk then (defaultSession now, AccountReply.saved)
    else (session, AccountReply.saveError)
  else (session, AccountReply.invalid)

/-! ### Concrete inputs used by witnesses and counterexamples -/

/-- A session that has reached account selection with one pending skin and a
price, as the state machine produces just before a commit. -/
def sessionC1 : Session :=
  { skins := [Skin.mk ("AWP Asiimov") (some ("Field-Tested"))], step := "selectAccount",
    timestamp := 0,
    search := { term := "", results := [], page := 0, pageSize := 5 },
    currentSkin := none, price := some (JSNum.num 50 0) }

/-- A session mid-conversation whose last activity is far in the past. -/
def staleSessionC2 : Session :=
  { skins := [Skin.mk ("AWP Asiimov") (some ("Factory New"))], step := "enterPrice",
    timestamp := 0,
    search := { term := "awp", results := [], page := 0, pageSize := 5 },
    currentSkin := none, price := none }

/-- A session waiting at the price-entry step. -/
def sessionC3 : Session :=
  { defaultSession 0 with
      step := "enterPrice"
      skins := [Skin.mk ("AK-47 Redline") (some ("Field-Tested"))] }

/-- Stored rows whose dates are NOT in ascending order: the maximum date is on
the first row, the last row carries the smaller date. -/
def rowsC7 : List (List String) :=
  [["2024-02-01", "AWP Asiimov", "Factory New", "50", "", "Maleek"],
   ["2024-01-15", "AK-47 Redline", "Field-Tested", "10", "", "Titalium"]]

/-- Stored rows in ascending date order, as an append-only log produces. -/
def rowsC7sorted : List (List String) :=
  [["2024-01-15", "AK-47 Redline", "Field-Tested", "10", "", "Titalium"],
   ["2024-02-01", "AWP Asiimov", "Factory New", "50", "", "Maleek"]]

/-- A session holding a single ranked search result with the default page size
of five. -/
def sessionC8 : Session :=
  { defaultSession 0 with
      step := "searchSkin"
      search := { term := "awp", results := ["AWP Asiimov Factory New"], page := 0, pageSize := 5 } }

/-- A session holding one ranked result, used to exercise a rendered page. -/
def sessionC9 : Session :=
  { defaultSession 0 with
      step := "searchSkin"
      search := { term := "ak", results := ["AK-47 Redline Field-Tested"], page := 0, pageSize := 5 } }

/-! ### Helper lemmas -/

theorem pageHandler_eq (session : Session) (pageNum : Nat) :
    pageHandler session pageNum =
      if session.search.results.length = 0 then (session, PageReply.noResultsAvailable)
      else if ((session.search.results.drop (pageNum * session.search.pageSize)).take
          session.search.pageSize).length = 0 then
        ({ session with search := { session.search with page := pageNum } }, PageReply.noMore)
      else
        ({ session with search := { session.search with page := pageNum } },
         PageReply.page
           ((session.search.results.drop (pageNum * session.search.pageSize)).take
             session.search.pageSize)
           (decide (0 < pageNum))
           (decide (pageNum * session.search.pageSize + session.search.pageSize
             < session.search.results.length))
           (totalPages session.search.results.length session.search.pageSize)) := rfl

theorem totalPages_le_mul (len pageSize : Nat) (h : 0 < pageSize) :
    len ≤ totalPages len pageSize * pageSize := by
  unfold totalPages
  have hd := Nat.div_add_mod (len + pageSize - 1) pageSize
  have hm : (len + pageSize - 1) % pageSize < pageSize := Nat.mod_lt _ h
  rw [Nat.mul_comm]
  set m := pageSize * ((len + pageSize - 1) / pageSize) with hmdef
  omega

theorem totalPages_le_of (len pageSize k : Nat) (h : 0 < pageSize)
    (hk : len ≤ k * pageSize) : totalPages len pageSize ≤ k := by
  unfold totalPages
  have h1 : len + pageSize - 1 ≤ pageSize * k + (pageSize - 1) := by
    rw [Nat.mul_comm k pageSize] at hk
    set m := pageSize * k with hmdef
    omega
  calc (len + pageSize - 1) / pageSize
      ≤ (pageSize * k + (pageSize - 1)) / pageSize := Nat.div_le_div_right h1
    _ = k + (pageSize - 1) / pageSize := Nat.mul_add_div h k (pageSize - 1)
    _ = k := by
        rw [Nat.div_eq_of_lt (by omega)]
        omega

theorem fetchSkinsList_ok_eq (cache : SkinsCache) (now : Nat)
    (rows : List (List String)) :
    fetchSkinsList cache now (Except.ok rows) =
      if 0 < cache.list.length ∧ now - cache.lastUpdated < cacheDuration then
        { result := Except.ok cache.list, cache := cache, didFetch := false }
      else
        { result := Except.ok (fetchedNames rows),
          cache := { list := fetchedNames rows, lastUpdated := now },
          didFetch := true } := by
  unfold fetchSkinsList
  split <;> rfl

theorem fetchSkinsList_error_eq (cache : SkinsCache) (now : Nat) (err : String) :
    fetchSkinsList cache now (Except.error err) =
      if 0 < cache.list.length ∧ now - cache.lastUpdated < cacheDuration then
        { result := Except.ok cache.list, cache := cache, didFetch := false }
      else if 0 < cache.list.length then
        { result := Except.ok cache.list, cache := cache, didFetch := true }
      else
        { result := Except.error ("Failed to fetch skins list: " ++ err), cache := cache,
          didFetch := true } := by
  unfold fetchSkinsList
  split <;> rfl

theorem fetchSkinsList_ok_cache (cache : SkinsCache) (now : Nat)
    (fetch : Except String (List (List String))) (l : List String)
    (h : (fetchSkinsList cache now fetch).result = Except.ok l) :
    (fetchSkinsList cache now fetch).cache.list = l := by
  by_cases hc : 0 < cache.list.length ∧ now - cache.lastUpdated < cacheDuration
  · cases fetch with
    | ok rows =>
        rw [fetchSkinsList_ok_eq, if_pos hc] at h ⊢
        simpa using h
    | error err =>
        rw [fetchSkinsList_error_eq, if_pos hc] at h ⊢
        simpa using h
  · cases fetch with
    | ok rows =>
        rw [fetchSkinsList_ok_eq, if_neg hc] at h ⊢
        simpa using h
    | error err =>
        rw [fetchSkinsList_error_eq, if_neg hc] at h ⊢
        by_cases hl : 0 < cache.list.length
        · rw [if_pos hl] at h ⊢
          simpa using h
        · rw [if_neg hl] at h
          simp at h

/-! ### C1: account selection resets the session only on append success -/

/-- C1 (amended): after a valid account selection the session is reset to the
default state exactly when the Trade Log Writer append succeeds; when the
append fails the error reply is rendered and the session is returned
unchanged, and an unknown account leaves the session unchanged too. -/
theorem selectAccountHandler_reset_policy (session : Session) (account : String)
    (now : Nat) :
    (account ∈ accountOptions →
        selectAccountHandler session account true now
          = (defaultSession now, AccountReply.saved)
      ∧ selectAccountHandler session account false now
          = (session, AccountReply.saveError))
  ∧ (account ∉ accountOptions →
      ∀ appendOk, selectAccountHandler session account appendOk now
        = (session, AccountReply.invalid)) := by
  constructor
  · intro h
    constructor <;> simp [selectAccountHandler, h]
  · intro h appendOk
    simp [selectAccountHandler, h]

/-- C1 witness: at a concrete pre-commit session and the account Maleek, the
policy theorem yields both the success reset and the failure non-reset. -/
theorem selectAccountHandler_reset_policy_witness :
    selectAccountHandler sessionC1 "Maleek" true 123
        = (defaultSession 123, AccountReply.saved)
  ∧ selectAccountHandler sessionC1 "Maleek" false 123
        = (sessionC1, AccountReply.saveError) :=
  (selectAccountHandler_reset_policy sessionC1 "Maleek" 123).1 (by decide)

/-- C1 counterexample: on a failing append for a valid account, the session is
NOT reset: it keeps step selectAccount, its pending skin and its price, and
differs from the default state the claim promises. -/
theorem selectAccountHandler_no_reset_on_failure :
    (selectAccountHandler sessionC1 "Maleek" false 123).1 = sessionC1
  ∧ (selectAccountHandler sessionC1 "Maleek" false 123).2 = AccountReply.saveError
  ∧ sessionC1.step = "selectAccount"
  ∧ sessionC1.skins ≠ []
  ∧ (selectAccountHandler sessionC1 "Maleek" false 123).1.step ≠ "addSkin"
  ∧ (selectAccountHandler sessionC1 "Maleek" false 123).1 ≠ defaultSession 123 := by
  decide

/-! ### C3: price validation -/

/-- C3 (amended): in the enterPrice step, text whose parseFloat value is NaN
re-prompts and leaves the session unchanged; a parsed value <= 0 (including
-Infinity) re-prompts and leaves the session unchanged; and ANY parsed value
greater than zero, including the non-finite Infinity, is stored as the price
with a transition to selectAccount - finiteness is never checked. -/
theorem handleEnterPrice_validation (session : Session) (rawText : String) :
    (jsIsNaN (parseFloat (jsTrim rawText)) = true →
        handleEnterPrice session rawText = (session, PriceReply.invalidNumber))
  ∧ (jsIsNaN (parseFloat (jsTrim rawText)) = false →
      jsLeZero (parseFloat (jsTrim rawText)) = true →
        handleEnterPrice session rawText = (session, PriceReply.notPositive))
  ∧ (jsIsNaN (parseFloat (jsTrim rawText)) = false →
      jsLeZero (parseFloat (jsTrim rawText)) = false →
        handleEnterPrice session rawText =
          ({ session with
              price := some (parseFloat (jsTrim rawText))
              step := "selectAccount" },
           PriceReply.accountMenu accountOptions)) := by
  refine ⟨fun h => ?_, fun h1 h2 => ?_, fun h1 h2 => ?_⟩
  · simp [handleEnterPrice, h]
  · simp [handleEnterPrice, h1, h2]
  · simp [handleEnterPrice, h1, h2]

/-- C3 witness: the text abc parses to NaN and re-prompts leaving the session
unchanged, while 2.5 parses positive and moves the session to selectAccount
with the price stored. -/
theorem handleEnterPrice_validation_witness :
    handleEnterPrice sessionC3 "abc" = (sessionC3, PriceReply.invalidNumber)
  ∧ handleEnterPrice sessionC3 "2.5" =
      ({ sessionC3 with
          price := some (parseFloat (jsTrim "2.5"))
          step := "selectAccount" },
       PriceReply.accountMenu accountOptions) :=
  ⟨(handleEnterPrice_validation sessionC3 "abc").1 (by decide),
   (handleEnterPrice_validation sessionC3 "2.5").2.2 (by decide) (by decide)⟩

/-- C3 counterexample: the input Infinity does not parse as a finite positive
decimal, yet the handler accepts it: the session moves to selectAccount with
the non-finite value stored as the price, instead of staying at enterPrice. -/
theorem handleEnterPrice_accepts_infinity :
    parseFloat (jsTrim "Infinity") = JSNum.inf false
  ∧ sessionC3.step = "enterPrice"
  ∧ (handleEnterPrice sessionC3 "Infinity").1.step = "selectAccount"
  ∧ (handleEnterPrice sessionC3 "Infinity").1.price = some (JSNum.inf false) := by
  decide

/-! ### C5: cache error propagation -/

/-- C5: fetchSkinsList surfaces an error to the caller only when the cached
list is empty and the remote fetch fails; when the fetch fails but a non-empty
cache exists, the stale cached list is returned unchanged and no error
escapes. -/
theorem fetchSkinsList_error_policy (cache : SkinsCache) (now : Nat)
    (fetch : Except String (List (List String))) :
    (∀ msg, (fetchSkinsList cache now fetch).result = Except.error msg →
        cache.list = [] ∧ ∃ err, fetch = Except.error err)
  ∧ (∀ err, fetch = Except.error err → cache.list ≠ [] →
        (fetchSkinsList cache now fetch).result = Except.ok cache.list
      ∧ (fetchSkinsList cache now fetch).cache = cache) := by
  constructor
  · intro msg hmsg
    by_cases hc : 0 < cache.list.length ∧ now - cache.lastUpdated < cacheDuration
    · cases fetch with
      | ok rows => rw [fetchSkinsList_ok_eq, if_pos hc] at hmsg; simp at hmsg
      | error err => rw [fetchSkinsList_error_eq, if_pos hc] at hmsg; simp at hmsg
    · cases fetch with
      | ok rows => rw [fetchSkinsList_ok_eq, if_neg hc] at hmsg; simp at hmsg
      | error err =>
          by_cases hl : 0 < cache.list.length
          · rw [fetchSkinsList_error_eq, if_neg hc, if_pos hl] at hmsg
            simp at hmsg
          · exact ⟨List.eq_nil_of_length_eq_zero (by omega), err, rfl⟩
  · intro err herr hne
    subst herr
    have hl : 0 < cache.list.length := List.length_pos.mpr hne
    by_cases hc : 0 < cache.list.length ∧ now - cache.lastUpdated < cacheDuration
    · rw [fetchSkinsList_error_eq, if_pos hc]
      exact ⟨rfl, rfl⟩
    · rw [fetchSkinsList_error_eq, if_neg hc, if_pos hl]
      exact ⟨rfl, rfl⟩

/-- C5 witness: a failing fetch over a populated one-entry cache serves the
cached list with no error and leaves the cache unchanged. -/
theorem fetchSkinsList_error_policy_witness :
    (fetchSkinsList (SkinsCache.mk ["AK-47 Redline"] 0) 9999999 (Except.error "boom")).result
        = Except.ok ["AK-47 Redline"]
  ∧ (fetchSkinsList (SkinsCache.mk ["AK-47 Redline"] 0) 9999999 (Except.error "boom")).cache
        = SkinsCache.mk ["AK-47 Redline"] 0 :=
  (fetchSkinsList_error_policy (SkinsCache.mk ["AK-47 Redline"] 0) 9999999
    (Except.error "boom")).2 "boom" rfl (by decide)

/-! ### C6: idempotence within the TTL -/

/-- C6 (amended): when a fetchSkinsList call returns a NON-EMPTY list, a
second call within the TTL of the resulting cache returns the identical list,
leaves the cache untouched and performs no remote fetch, whatever the second
fetch outcome would have been.  (The non-empty proviso is forced: an empty
cached list never satisfies the freshness test.) -/
theorem fetchSkinsList_ttl_idempotent (cache : SkinsCache) (t1 t2 : Nat)
    (f1 f2 : Except String (List (List String))) (l : List String)
    (h1 : (fetchSkinsList cache t1 f1).result = Except.ok l)
    (hne : l ≠ [])
    (h2 : t2 - (fetchSkinsList cache t1 f1).cache.lastUpdated < cacheDuration) :
    fetchSkinsList (fetchSkinsList cache t1 f1).cache t2 f2
      = { result := Except.ok l, cache := (fetchSkinsList cache t1 f1).cache,
          didFetch := false } := by
  have hl := fetchSkinsList_ok_cache cache t1 f1 l h1
  set c1 := (fetchSkinsList cache t1 f1).cache with hc1
  have hpos : 0 < c1.list.length := by
    rw [hl]
    exact List.length_pos.mpr hne
  unfold fetchSkinsList
  rw [if_pos ⟨hpos, h2⟩, hl]

/-- C6 witness: with a populated cache still inside the TTL, two consecutive
calls return the same list and the second is served from the cache. -/
theorem fetchSkinsList_ttl_idempotent_witness :
    fetchSkinsList (fetchSkinsList (SkinsCache.mk ["AK-47 Redline"] 0) 1 (Except.error "a")).cache
        2 (Except.error "b")
      = { result := Except.ok ["AK-47 Redline"],
          cache := (fetchSkinsList (SkinsCache.mk ["AK-47 Redline"] 0) 1 (Except.error "a")).cache,
          didFetch := false } :=
  fetchSkinsList_ttl_idempotent (SkinsCache.mk ["AK-47 Redline"] 0) 1 2
    (Except.error "a") (Except.error "b") ["AK-47 Redline"] (by decide) (by decide) (by decide)

/-- C6 counterexample: a first call that successfully fetches an EMPTY list is
not treated as fresh: a second call one millisecond later, well inside the
TTL and with no intervening write, fetches again and can return a different
sequence. -/
theorem fetchSkinsList_empty_cache_refetch :
    (fetchSkinsList (SkinsCache.mk [] 0) 10 (Except.ok [])).result = Except.ok []
  ∧ (fetchSkinsList (SkinsCache.mk [] 0) 10 (Except.ok [])).cache = SkinsCache.mk [] 10
  ∧ 11 - 10 < cacheDuration
  ∧ (fetchSkinsList (SkinsCache.mk [] 10) 11 (Except.ok [["AK-47 Redline"]])).didFetch = true
  ∧ (fetchSkinsList (SkinsCache.mk [] 10) 11 (Except.ok [["AK-47 Redline"]])).result
        = Except.ok ["AK-47 Redline"]
  ∧ (Except.ok ["AK-47 Redline"] : Except String (List String)) ≠ Except.ok [] := by
  decide

/-! ### C8: the pageIndex bound -/

/-- C8 (amended): the stored pageIndex satisfies the bound
pageIndex * pageSize < results.length whenever the requested page renders
non-empty; but a page event whose slice is empty still stores the requested
index after replying no-more-results, so the stored pageIndex can exceed the
bound (and an empty result list leaves the session untouched). -/
theorem pageHandler_bounds (session : Session) (pageNum : Nat) :
    (session.search.results = [] →
        pageHandler session pageNum = (session, PageReply.noResultsAvailable))
  ∧ (session.search.results ≠ [] →
        (pageHandler session pageNum).1.search.page = pageNum
      ∧ (pageHandler session pageNum).1.search.results = session.search.results
      ∧ (pageHandler session pageNum).1.search.pageSize = session.search.pageSize
      ∧ ((session.search.results.drop (pageNum * session.search.pageSize)).take
            session.search.pageSize = [] →
          (pageHandler session pageNum).2 = PageReply.noMore))
  ∧ (∀ items hp hn tp, (pageHandler session pageNum).2 = PageReply.page items hp hn tp →
        pageNum * session.search.pageSize < session.search.results.length) := by
  refine ⟨fun h => ?_, fun hne => ?_, fun items hp hn tp h => ?_⟩
  · rw [pageHandler_eq, if_pos (by simp [h])]
  · have h0 : ¬ (session.search.results.length = 0) := by
      simpa [List.length_eq_zero] using hne
    refine ⟨?_, ?_, ?_, fun hsl => ?_⟩
    · rw [pageHandler_eq, if_neg h0]
      split <;> rfl
    · rw [pageHandler_eq, if_neg h0]
      split <;> rfl
    · rw [pageHandler_eq, if_neg h0]
      split <;> rfl
    · rw [pageHandler_eq, if_neg h0, if_pos (by simp [hsl])]
  · rw [pageHandler_eq] at h
    by_cases h0 : session.search.results.length = 0
    · rw [if_pos h0] at h
      exact absurd h (by simp)
    · rw [if_neg h0] at h
      by_cases h1 : ((session.search.results.drop (pageNum * session.search.pageSize)).take
          session.search.pageSize).length = 0
      · rw [if_pos h1] at h
        exact absurd h (by simp)
      · rw [if_neg h1] at h
        simp only [List.length_take, List.length_drop] at h1
        omega

/-- C8 witness: with one stored result, page 0 renders and the bound holds,
and an empty slice at page 1 replies no-more-results. -/
theorem pageHandler_bounds_witness :
    0 * sessionC9.search.pageSize < sessionC9.search.results.length
  ∧ (pageHandler sessionC8 1).2 = PageReply.noMore :=
  ⟨(pageHandler_bounds sessionC9 0).2.2 ["AK-47 Redline Field-Tested"] false false 1 (by decide),
   ((pageHandler_bounds sessionC8 1).2.1 (by decide)).2.2.2 (by decide)⟩

/-- C8 counterexample: a page-2 event over a single stored result replies
no-more-results but stores pageIndex 2, and the stored
pageIndex * pageSize = 10 exceeds rankedResults.length = 1, violating the
claimed invariant. -/
theorem pageHandler_stores_out_of_range_page :
    (pageHandler sessionC8 2).2 = PageReply.noMore
  ∧ (pageHandler sessionC8 2).1.search.page = 2
  ∧ (pageHandler sessionC8 2).1.search.page * (pageHandler sessionC8 2).1.search.pageSize
      > (pageHandler sessionC8 2).1.search.results.length := by
  decide

/-! ### C9: paginator controls -/

/-- C9 (amended): totalPages is exactly the ceiling of len / pageSize (the
two characterizing inequalities below), with NO minimum clamp: it is 0 for
empty input, and agrees with the spec value max(ceil, 1) exactly on non-empty
input - which is the only input a page is ever rendered for; on every
rendered page the previous control is offered iff pageIndex > 0 and the next
control iff (pageIndex+1) * pageSize < results.length. -/
theorem paginator_controls (session : Session) (pageNum : Nat) (len pageSize : Nat) :
    (0 < pageSize →
        len ≤ totalPages len pageSize * pageSize
      ∧ (∀ k, len ≤ k * pageSize → totalPages len pageSize ≤ k)
      ∧ (0 < len → totalPages len pageSize = totalPagesSpec len pageSize))
  ∧ totalPages 0 pageSize = 0
  ∧ (∀ items hp hn tp, (pageHandler session pageNum).2 = PageReply.page items hp hn tp →
        hp = decide (0 < pageNum)
      ∧ hn = decide ((pageNum + 1) * session.search.pageSize
            < session.search.results.length)
      ∧ tp = totalPages session.search.results.length session.search.pageSize
      ∧ 0 < session.search.results.length) := by
  refine ⟨fun hps => ⟨totalPages_le_mul len pageSize hps,
      fun k hk => totalPages_le_of len pageSize k hps hk, fun hlen => ?_⟩, ?_, ?_⟩
  · unfold totalPages totalPagesSpec
    have h1 : 1 ≤ (len + pageSize - 1) / pageSize := by
      rw [Nat.one_le_div_iff hps]
      omega
    rw [Nat.max_eq_left h1]
  · unfold totalPages
    match pageSize with
    | 0 => rfl
    | n + 1 => exact Nat.div_eq_of_lt (by omega)
  · intro items hp hn tp h
    rw [pageHandler_eq] at h
    by_cases h0 : session.search.results.length = 0
    · rw [if_pos h0] at h
      exact absurd h (by simp)
    · rw [if_neg h0] at h
      by_cases h1 : ((session.search.results.drop (pageNum * session.search.pageSize)).take
          session.search.pageSize).length = 0
      · rw [if_pos h1] at h
        exact absurd h (by simp)
      · rw [if_neg h1] at h
        have h2 := h
        simp only [PageReply.page.injEq] at h2
        refine ⟨h2.2.1.symm, ?_, h2.2.2.2.symm, by omega⟩
        rw [Nat.succ_mul]
        exact h2.2.2.1.symm

/-- C9 witness: the ceiling characterization at 7 items of page size 5, and
the rendered controls of page 0 over one stored result. -/
theorem paginator_controls_witness :
    7 ≤ totalPages 7 5 * 5
  ∧ (false = decide (0 < 0)
    ∧ false = decide ((0 + 1) * sessionC9.search.pageSize < sessionC9.search.results.length)
    ∧ 1 = totalPages sessionC9.search.results.length sessionC9.search.pageSize
    ∧ 0 < sessionC9.search.results.length) :=
  ⟨((paginator_controls sessionC9 0 7 5).1 (by decide)).1,
   (paginator_controls sessionC9 0 7 5).2.2 ["AK-47 Redline Field-Tested"] false false 1
     (by decide)⟩

/-- C9 counterexample: for empty input the code computes ceil(0 / 5) = 0
total pages, not the minimum of 1 the claim states. -/
theorem totalPages_empty_no_minimum :
    totalPages 0 5 = 0 ∧ totalPagesSpec 0 5 = 1 ∧ totalPages 0 5 ≠ totalPagesSpec 0 5 := by
  decide

/-! ### C10: skin selection accepts any payload -/

/-- C10: for every decode function, session and payload, the skin selection
handler stores the decoded payload as the current skin name and moves to
selectWear, leaving the pending skins and the stored search results untouched;
no membership test against the ranked results or the cached corpus occurs, so
every payload string is accepted. -/
theorem selectSkinHandler_accepts_any_payload (decode : String → String)
    (session : Session) (payload : String) :
    (selectSkinHandler decode session payload).1.currentSkin
        = some (Skin.mk (decode payload) none)
  ∧ (selectSkinHandler decode session payload).1.step = "selectWear"
  ∧ (selectSkinHandler decode session payload).1.search = session.search
  ∧ (selectSkinHandler decode session payload).1.skins = session.skins
  ∧ (selectSkinHandler decode session payload).2
        = SkinReply.wearMenu (decode payload) wearOptions :=
  ⟨rfl, rfl, rfl, rfl, rfl⟩

/-! ### C2: the session expiry sweep -/

/-- C2 (amended): initializeSession runs the expiry sweep only on calls that
CREATE a session.  When the requesting user already has a session it is
returned unchanged - however stale - and no session is removed; when the user
has none, a fresh default session is stored for them and every session whose
timestamp is more than the one-hour threshold old is removed, so every
surviving entry is within the threshold. -/
theorem initializeSession_sweep_policy (store : List (Nat × Session)) (userId now : Nat) :
    (∀ s, lookupSession store userId = some s →
        initializeSession store userId now = (store, s))
  ∧ (lookupSession store userId = none →
        (initializeSession store userId now).2 = defaultSession now
      ∧ lookupSession (initializeSession store userId now).1 userId
          = some (defaultSession now)
      ∧ ∀ p ∈ (initializeSession store userId now).1,
          now - p.2.timestamp ≤ 3600000) := by
  constructor
  · intro s hs
    simp [initializeSession, hs]
  · intro hnone
    have heq : initializeSession store userId now =
        ((store ++ [(userId, defaultSession now)]).filter
            (fun p => !(decide (now - p.2.timestamp > 3600000))),
         defaultSession now) := by
      simp [initializeSession, hnone]
    have hfind : store.find? (fun p => p.1 == userId) = none := by
      unfold lookupSession at hnone
      cases hfd : store.find? (fun p => p.1 == userId) with
      | none => rfl
      | some p => rw [hfd] at hnone; simp at hnone
    have hall : ∀ p ∈ store, ¬ ((fun p : Nat × Session => p.1 == userId) p = true) :=
      List.find?_eq_none.mp hfind
    refine ⟨by rw [heq], ?_, ?_⟩
    · rw [heq]
      unfold lookupSession
      rw [List.filter_append]
      have hsingle : List.filter (fun p : Nat × Session =>
            !(decide (now - p.2.timestamp > 3600000))) [(userId, defaultSession now)]
          = [(userId, defaultSession now)] := by
        simp [defaultSession]
      rw [hsingle, List.find?_append]
      have hnofind : (store.filter (fun p : Nat × Session =>
            !(decide (now - p.2.timestamp > 3600000)))).find?
          (fun p => p.1 == userId) = none := by
        apply List.find?_eq_none.mpr
        intro x hx
        exact hall x (List.mem_filter.mp hx).1
      rw [hnofind]
      simp [List.find?]
    · intro p hp
      rw [heq] at hp
      simp only [List.mem_filter] at hp
      have hkeep := hp.2
      simp only [Bool.not_eq_true', decide_eq_false_iff_not] at hkeep
      omega

/-- C2 witness: an existing session is returned as is, and a fresh call for an
unknown user creates the default session and stores it. -/
theorem initializeSession_sweep_policy_witness :
    initializeSession [(1, staleSessionC2)] 1 4000000 = ([(1, staleSessionC2)], staleSessionC2)
  ∧ ((initializeSession [] 2 5).2 = defaultSession 5
    ∧ lookupSession (initializeSession [] 2 5).1 2 = some (defaultSession 5)
    ∧ ∀ p ∈ (initializeSession [] 2 5).1, 5 - p.2.timestamp ≤ 3600000) :=
  ⟨(initializeSession_sweep_policy [(1, staleSessionC2)] 1 4000000).1 staleSessionC2 (by decide),
   (initializeSession_sweep_policy [] 2 5).2 (by decide)⟩

/-- C2 counterexample: a session idle for longer than the one-hour threshold
is NOT removed when its own user calls getOrCreate again: the call returns the
stale mid-conversation session unchanged instead of a fresh default one, and
the store still contains it. -/
theorem initializeSession_stale_session_counterexample :
    initializeSession [(1, staleSessionC2)] 1 4000000 = ([(1, staleSessionC2)], staleSessionC2)
  ∧ 4000000 - staleSessionC2.timestamp > 3600000
  ∧ staleSessionC2.step = "enterPrice"
  ∧ staleSessionC2 ≠ defaultSession 4000000
  ∧ lookupSession (initializeSession [(1, staleSessionC2)] 1 4000000).1 1
      = some staleSessionC2 := by
  decide

/-! ### C4: the fuzzy matcher -/

theorem scoredKept_names (pr : String → String → Nat) (corpus : List String)
    (query : String) :
    (scoredKept pr corpus query).map Scored.name
      = corpus.filter (fun skin => decide (70 < pr (normalizeName query) (normalizeName skin))) := by
  unfold scoredKept scoredAll
  rw [List.filter_map, List.map_map]
  simp [Function.comp_def]

/-- C4: searchSkins is a pure function whose output is exactly the corpus
entries whose score against the normalized query exceeds 70 (as a permutation,
hence the same multiset), listed in an order that is sorted non-increasing by
score; and the sort is stable: any two entries that survive the filter in
corpus order with the earlier one scoring at least the later one keep their
relative order, which for equal scores is exactly the original corpus order.
The scorer pr stands for the third-party fuzzball partial-ratio. -/
theorem searchSkins_ranked_spec (pr : String → String → Nat) (corpus : List String)
    (query : String) :
    List.Perm (searchSkins pr corpus query)
        (corpus.filter (fun skin => decide (70 < pr (normalizeName query) (normalizeName skin))))
  ∧ searchSkins pr corpus query = (rankedSkins pr corpus query).map Scored.name
  ∧ List.Sorted scoreGe (rankedSkins pr corpus query)
  ∧ (∀ x ∈ rankedSkins pr corpus query, 70 < x.score)
  ∧ (∀ a b : Scored, List.Sublist [a, b] (scoredKept pr corpus query) → b.score ≤ a.score →
        List.Sublist [a, b] (rankedSkins pr corpus query)) := by
  have hperm : List.Perm (rankedSkins pr corpus query) (scoredKept pr corpus query) :=
    List.perm_insertionSort scoreGe _
  refine ⟨?_, rfl, List.sorted_insertionSort scoreGe _, ?_, ?_⟩
  · have h2 : List.Perm (searchSkins pr corpus query)
        ((scoredKept pr corpus query).map Scored.name) := hperm.map Scored.name
    rw [scoredKept_names] at h2
    exact h2
  · intro x hx
    have hx2 : x ∈ scoredKept pr corpus query := hperm.mem_iff.mp hx
    have := (List.mem_filter.mp hx2).2
    simpa using this
  · intro a b hab hscore
    exact List.pair_sublist_insertionSort hscore hab

/-- C4 witness: with a constant scorer of 80 both corpus entries survive and
keep their corpus order through the ranking, and every ranked entry scores
above the threshold. -/
theorem searchSkins_ranked_spec_witness :
    List.Sublist [Scored.mk "aa" 80, Scored.mk "bb" 80]
        (rankedSkins (fun _ _ => 80) ["aa", "bb"] "q")
  ∧ 70 < (Scored.mk "aa" 80).score :=
  ⟨(searchSkins_ranked_spec (fun _ _ => 80) ["aa", "bb"] "q").2.2.2.2
      (Scored.mk "aa" 80) (Scored.mk "bb" 80) (by decide) (by decide),
   (searchSkins_ranked_spec (fun _ _ => 80) ["aa", "bb"] "q").2.2.2.1
      (Scored.mk "aa" 80) (by decide)⟩

/-! ### C7: the last log -/

theorem getLast_eq_getLastD {α : Type} (l : List α) (h : l ≠ []) (d : α) :
    l.getLast h = l.getLastD d := by
  rw [List.getLastD_eq_getLast?, List.getLast?_eq_getLast l h, Option.getD_some]

theorem map_getLastD {α β : Type} (f : α → β) (rs : List α) (a : α) :
    (rs.map f).getLastD (f a) = f (rs.getLastD a) := by
  induction rs generalizing a with
  | nil => rfl
  | cons b t ih =>
      rw [List.map_cons, List.getLastD_cons, ih b, List.getLastD_cons]

theorem foldl_strMax_pairwise (ds : List String) (a : String)
    (h : (a :: ds).Pairwise (fun x y => strLt y x = false)) :
    ds.foldl strMax a = ds.getLastD a := by
  induction ds generalizing a with
  | nil => rfl
  | cons b t ih =>
      have hab : strLt b a = false := (List.pairwise_cons.mp h).1 b (by simp)
      have h2 := (List.pairwise_cons.mp h).2
      have hmax : strMax a b = b := by simp [strMax, hab]
      simp only [List.foldl_cons, hmax, List.getLastD_cons]
      exact ih b h2

theorem head_getElem (r : List String) (h : r ≠ []) : r[0]? = some (r.headD ("")) := by
  cases r with
  | nil => exact absurd rfl h
  | cons a t => simp

theorem getD_last_eq (rows : List (List String)) (h : rows ≠ []) :
    rows.getD (rows.length - 1) [] = rows.getLast h := by
  have hlt : rows.length - 1 < rows.length := by
    have : rows.length ≠ 0 := by simpa [List.length_eq_zero] using h
    omega
  rw [List.getD_eq_getElem?_getD, List.getElem?_eq_getElem hlt, Option.getD_some,
    List.getLast_eq_getElem]

theorem getLastLog_eq (rows : List (List String)) (hne : ¬ (rows.length = 0))
    (d : Option String) (hd : (rows.getD (rows.length - 1) [])[0]? = d) :
    getLastLog rows =
      if (rows.filter (fun row => decide (row[0]? = d))).length = 0 then
        "No previous logs found."
      else
        formatLastLog (jsTemplate d) (rows.filter (fun row => decide (row[0]? = d))) := by
  subst hd
  unfold getLastLog
  rw [if_neg hne]

theorem getLastLogSpec_eq (rows : List (List String)) (hne : ¬ (rows.length = 0))
    (m : String)
    (hm : (rows.map (fun r => r.headD (""))).foldl strMax
        ((rows.map (fun r => r.headD (""))).headD ("")) = m) :
    getLastLogSpec rows =
      if (rows.filter (fun row => decide (row.headD ("") = m))).length = 0 then
        "No previous logs found."
      else
        formatLastLog m (rows.filter (fun row => decide (row.headD ("") = m))) := by
  subst hm
  unfold getLastLogSpec
  rw [if_neg hne]

/-- C7 (amended): getLastLog groups by the date of the LAST stored row rather
than by the maximum date; on a store whose rows are in non-decreasing date
order - which is what append-only logging produces - the two coincide, so the
code agrees with the spec description exactly on such inputs, and the empty
store yields the no-previous-logs sentinel rather than an error. -/
theorem getLastLog_last_row_date (rows : List (List String)) (hne : rows ≠ [])
    (hcells : ∀ r ∈ rows, r ≠ [])
    (hsorted : (rows.map (fun r => r.headD (""))).Pairwise (fun x y => strLt y x = false)) :
    getLastLog rows = getLastLogSpec rows
  ∧ getLastLog [] = "No previous logs found." := by
  refine ⟨?_, rfl⟩
  have hlen : ¬ (rows.length = 0) := by simpa [List.length_eq_zero] using hne
  have hlrmem : rows.getLast hne ∈ rows := List.getLast_mem hne
  have hlrne : rows.getLast hne ≠ [] := hcells _ hlrmem
  have hgetD : rows.getD (rows.length - 1) [] = rows.getLast hne := getD_last_eq rows hne
  have hdate : (rows.getD (rows.length - 1) [])[0]? = some ((rows.getLast hne).headD ("")) := by
    rw [hgetD]
    exact head_getElem _ hlrne
  have hmax : (rows.map (fun r => r.headD (""))).foldl strMax
      ((rows.map (fun r => r.headD (""))).headD ("")) = (rows.getLast hne).headD ("") := by
    obtain ⟨r0, rs, rfl⟩ := List.exists_cons_of_ne_nil hne
    simp only [List.map_cons, List.headD_cons, List.foldl_cons]
    rw [show strMax (r0.headD ("")) (r0.headD ("")) = r0.headD ("") from ite_self _]
    rw [foldl_strMax_pairwise (rs.map (fun r => r.headD (""))) (r0.headD (""))
      (by simpa using hsorted)]
    rw [map_getLastD (fun r => r.headD ("")) rs r0]
    rw [getLast_eq_getLastD (r0 :: rs) (by simp) r0, List.getLastD_cons]
  have hfilter : rows.filter (fun row =>
        decide (row[0]? = some ((rows.getLast hne).headD (""))))
      = rows.filter (fun row =>
        decide (row.headD ("") = (rows.getLast hne).headD (""))) := by
    apply List.filter_congr
    intro row hrow
    rw [head_getElem row (hcells row hrow)]
    exact decide_eq_decide.mpr Option.some_inj
  have hmem : rows.getLast hne ∈ rows.filter (fun row =>
      decide (row.headD ("") = (rows.getLast hne).headD (""))) :=
    List.mem_filter.mpr ⟨hlrmem, by simp⟩
  have hgrplen : ¬ ((rows.filter (fun row =>
      decide (row.headD ("") = (rows.getLast hne).headD ("")))).length = 0) := by
    intro h0
    rw [List.length_eq_zero] at h0
    rw [h0] at hmem
    exact (List.not_mem_nil _) hmem
  rw [getLastLog_eq rows hlen (some ((rows.getLast hne).headD (""))) hdate,
    getLastLogSpec_eq rows hlen ((rows.getLast hne).headD ("")) hmax,
    hfilter, if_neg hgrplen, if_neg hgrplen]
  rfl

/-- C7 witness: on two rows stored in ascending date order, the code output
and the maximum-date spec description produce the same summary. -/
theorem getLastLog_last_row_date_witness :
    getLastLog rowsC7sorted = getLastLogSpec rowsC7sorted :=
  (getLastLog_last_row_date rowsC7sorted (by decide) (by decide) (by decide)).1

/-- C7 counterexample: when the stored rows are not in date order, getLastLog
groups by the LAST row date 2024-01-15 while the maximum date is 2024-02-01:
the code output differs from the maximum-date grouping the claim describes. -/
theorem getLastLog_not_max_date :
    getLastLog rowsC7 ≠ getLastLogSpec rowsC7
  ∧ getLastLog rowsC7 =
      "Last Log (Date: 2024-01-15):\nSkin 1: AK-47 Redline (Field-Tested)\nPrice Paid: 10\nAccount: Titalium"
  ∧ getLastLogSpec rowsC7 =
      "Last Log (Date: 2024-02-01):\nSkin 1: AWP Asiimov (Factory New)\nPrice Paid: 50\nAccount: Maleek" := by
  decide
